import Mathlib

/-!
Verification of the resilient multi-model request gateway of the ai-tutor
backend (ChatService): the rate-limit classifier, the model-fallback loop
with its shared cursor, the prompt builder with its history window, and the
response normalizer that parses (possibly malformed) model output.

The JavaScript source is shallowly embedded: strings are Lean `String`
(a wrapper around `List Char`), the mutable `currentModelIndex` cursor is
threaded explicitly, provider calls are a function parameter
`gen : Nat -> String -> Except String String` mapping a model position and a
prompt to either raw text or the thrown error message, and `JSON.parse` /
regex replacement / `trim` are modelled by executable character-level
functions below.
-/

/-- `leadsWith needle hay` is true when `needle` is an initial segment of
`hay` (character-exact). -/
def leadsWith : List Char → List Char → Bool
  | [], _ => true
  | _ :: _, [] => false
  | a :: as, b :: bs => a == b && leadsWith as bs

/-- `occursWithin needle hay` is true when `needle` occurs contiguously
anywhere in `hay`; models JavaScript `hay.includes(needle)`. -/
def occursWithin (needle : List Char) : List Char → Bool
  | [] => leadsWith needle []
  | c :: rest => leadsWith needle (c :: rest) || occursWithin needle rest

/-- JavaScript `s.includes(sub)`. -/
def includesStr (s sub : String) : Bool := occursWithin sub.data s.data

/-- JavaScript `s.toLowerCase()`, modelled for the ASCII range (the only
range the rate-limit needles live in). -/
def lowerStr (s : String) : String := ⟨s.data.map Char.toLower⟩

/-- `ChatService.isRateLimitError`: lowercase the error message and look for
any of the five provider rate-limit markers as substrings. -/
def isRateLimitError (message : String) : Bool :=
  let m := lowerStr message
  includesStr m "429" ||
  includesStr m "too many requests" ||
  includesStr m "resource exhausted" ||
  includesStr m "quota" ||
  includesStr m "rate limit"

/-- The fixed ordered list of backing models (`GEMINI_MODELS`). -/
def GEMINI_MODELS : List String :=
  ["gemini-3-flash-preview", "gemini-2.5-flash", "gemini-2.0-flash"]

/-- `private currentModelIndex = 0`: the shared cursor starts at 0 at
process start. -/
def initialModelIndex : Nat := 0

/-- The body of the `for` loop of `generateWithFallback`.  `gen idx` is the
outcome of invoking the backing model at position `idx` with the prompt
(`Except.error e` models a thrown error with message `e`).  `fuel` counts
the remaining iterations (the loop runs at most `n` times), `i` is the loop
counter, `lastError` the last remembered rate-limit error.  The returned
`Nat` is the value of `currentModelIndex` after the call: it is set to the
successful model position on success and left at `startIndex` otherwise. -/
def fallbackGo (gen : Nat → Except String String) (n startIndex : Nat) :
    Nat → Nat → Option String → Except String String × Nat
  | _, 0, lastError =>
    (Except.error (match lastError with
      | some e => e
      | none => "All Gemini models are unavailable"), startIndex)
  | i, fuel + 1, _lastError =>
    match gen ((startIndex + i) % n) with
    | Except.ok text => (Except.ok text, (startIndex + i) % n)
    | Except.error e =>
      if isRateLimitError e then
        fallbackGo gen n startIndex (i + 1) fuel (some e)
      else
        (Except.error e, startIndex)

/-- `ChatService.generateWithFallback`: try each model starting from the
current cursor, wrapping around, for at most `GEMINI_MODELS.length`
attempts. -/
def generateWithFallback (gen : Nat → Except String String) (startIndex : Nat) :
    Except String String × Nat :=
  fallbackGo gen GEMINI_MODELS.length startIndex 0 GEMINI_MODELS.length none

/-- The JSON values `JSON.parse` can produce.  Numbers keep their source
lexeme (their numeric value plays no role in this service). -/
inductive JsonValue where
  | null
  | bool (b : Bool)
  | num (lexeme : String)
  | str (s : String)
  | arr (elems : List JsonValue)
  | obj (fields : List (String × JsonValue))

/-- JSON whitespace. -/
def jsonWs (c : Char) : Bool := c == ' ' || c == '\t' || c == '\n' || c == '\r'

/-- Skip JSON whitespace. -/
def skipWs (cs : List Char) : List Char := cs.dropWhile jsonWs

/-- Hexadecimal digit value, for `\u` escapes. -/
def hexVal (c : Char) : Option Nat :=
  if c.isDigit then some (c.toNat - 48)
  else if 97 ≤ c.toNat ∧ c.toNat ≤ 102 then some (c.toNat - 87)
  else if 65 ≤ c.toNat ∧ c.toNat ≤ 70 then some (c.toNat - 55)
  else none

/-- Parse the body of a JSON string (after the opening quote), returning the
decoded characters and the remaining input. -/
def parseStringBody : List Char → Option (List Char × List Char)
  | '"' :: rest => some ([], rest)
  | '\\' :: '"' :: rest => Option.map (fun p => ('"' :: p.1, p.2)) (parseStringBody rest)
  | '\\' :: '\\' :: rest => Option.map (fun p => ('\\' :: p.1, p.2)) (parseStringBody rest)
  | '\\' :: '/' :: rest => Option.map (fun p => ('/' :: p.1, p.2)) (parseStringBody rest)
  | '\\' :: 'b' :: rest => Option.map (fun p => ('\x08' :: p.1, p.2)) (parseStringBody rest)
  | '\\' :: 'f' :: rest => Option.map (fun p => ('\x0c' :: p.1, p.2)) (parseStringBody rest)
  | '\\' :: 'n' :: rest => Option.map (fun p => ('\n' :: p.1, p.2)) (parseStringBody rest)
  | '\\' :: 'r' :: rest => Option.map (fun p => ('\r' :: p.1, p.2)) (parseStringBody rest)
  | '\\' :: 't' :: rest => Option.map (fun p => ('\t' :: p.1, p.2)) (parseStringBody rest)
  | '\\' :: 'u' :: a :: b :: c :: d :: rest =>
    match hexVal a, hexVal b, hexVal c, hexVal d with
    | some ha, some hb, some hc, some hd =>
      Option.map (fun p => (Char.ofNat (((ha * 16 + hb) * 16 + hc) * 16 + hd) :: p.1, p.2))
        (parseStringBody rest)
    | _, _, _, _ => none
  | '\\' :: _ => none
  | c :: rest =>
    if c.toNat < 32 then none
    else Option.map (fun p => (c :: p.1, p.2)) (parseStringBody rest)
  | [] => none

/-- Longest digit run at the front. -/
def digitsTok (cs : List Char) : List Char × List Char :=
  (cs.takeWhile Char.isDigit, cs.dropWhile Char.isDigit)

/-- Integer part of a JSON number (`0` or a nonzero digit followed by
digits). -/
def intPartTok : List Char → Option (List Char × List Char)
  | '0' :: rest => some (['0'], rest)
  | c :: rest =>
    if c.isDigit then
      let p := digitsTok rest
      some (c :: p.1, p.2)
    else none
  | [] => none

/-- Optional fraction part of a JSON number. -/
def numFracTok : List Char → Option (List Char × List Char)
  | '.' :: rest =>
    let p := digitsTok rest
    if p.1.isEmpty then none else some ('.' :: p.1, p.2)
  | cs => some ([], cs)

/-- Exponent digits after an `e`/`E`. -/
def expAfter (e : Char) (cs : List Char) : Option (List Char × List Char) :=
  let q := match cs with
    | '+' :: r => ((['+'] : List Char), r)
    | '-' :: r => ((['-'] : List Char), r)
    | _ => ([], cs)
  let p := digitsTok q.2
  if p.1.isEmpty then none else some (e :: (q.1 ++ p.1), p.2)

/-- Optional exponent part of a JSON number. -/
def numExpTok : List Char → Option (List Char × List Char)
  | 'e' :: rest => expAfter 'e' rest
  | 'E' :: rest => expAfter 'E' rest
  | cs => some ([], cs)

/-- A full JSON number token (sign, integer, fraction, exponent), returning
the lexeme and the remaining input. -/
def parseNumberTok (cs : List Char) : Option (List Char × List Char) := do
  let s := match cs with
    | '-' :: rest => ((['-'] : List Char), rest)
    | _ => ([], cs)
  let (ip, cs2) ← intPartTok s.2
  let (fp, cs3) ← numFracTok cs2
  let (ep, cs4) ← numExpTok cs3
  some (s.1 ++ ip ++ fp ++ ep, cs4)

mutual

/-- Recursive-descent JSON value parser; `fuel` bounds the recursion and is
chosen large enough at the top level (`parseJson`). -/
def parseValue : Nat → List Char → Option (JsonValue × List Char)
  | 0, _ => none
  | fuel + 1, cs =>
    match skipWs cs with
    | 'n' :: 'u' :: 'l' :: 'l' :: rest => some (JsonValue.null, rest)
    | 't' :: 'r' :: 'u' :: 'e' :: rest => some (JsonValue.bool true, rest)
    | 'f' :: 'a' :: 'l' :: 's' :: 'e' :: rest => some (JsonValue.bool false, rest)
    | '"' :: rest => Option.map (fun p => (JsonValue.str ⟨p.1⟩, p.2)) (parseStringBody rest)
    | '[' :: rest => parseArrayTail fuel rest
    | '\x7b' :: rest => parseObjTail fuel rest
    | cs2 => Option.map (fun p => (JsonValue.num ⟨p.1⟩, p.2)) (parseNumberTok cs2)

/-- Input just after `[`. -/
def parseArrayTail : Nat → List Char → Option (JsonValue × List Char)
  | 0, _ => none
  | fuel + 1, cs =>
    match skipWs cs with
    | ']' :: rest => some (JsonValue.arr [], rest)
    | cs2 => do
      let (v, r) ← parseValue fuel cs2
      parseArrayRest fuel [v] r

/-- Remaining elements of an array after at least one element. -/
def parseArrayRest : Nat → List JsonValue → List Char → Option (JsonValue × List Char)
  | 0, _, _ => none
  | fuel + 1, acc, cs =>
    match skipWs cs with
    | ',' :: rest => do
      let (v, r) ← parseValue fuel rest
      parseArrayRest fuel (acc ++ [v]) r
    | ']' :: rest => some (JsonValue.arr acc, rest)
    | _ => none

/-- Input just after `\x7b`. -/
def parseObjTail : Nat → List Char → Option (JsonValue × List Char)
  | 0, _ => none
  | fuel + 1, cs =>
    match skipWs cs with
    | '\x7d' :: rest => some (JsonValue.obj [], rest)
    | cs2 => do
      let (k, v, r) ← parseMember fuel cs2
      parseObjRest fuel [(k, v)] r

/-- One `"key": value` member. -/
def parseMember : Nat → List Char → Option (String × JsonValue × List Char)
  | 0, _ => none
  | fuel + 1, cs =>
    match skipWs cs with
    | '"' :: rest => do
      let (k, r1) ← parseStringBody rest
      match skipWs r1 with
      | ':' :: r2 => do
        let (v, r3) ← parseValue fuel r2
        some ((⟨k⟩ : String), v, r3)
      | _ => none
    | _ => none

/-- Remaining members of an object after at least one member. -/
def parseObjRest : Nat → List (String × JsonValue) → List Char → Option (JsonValue × List Char)
  | 0, _, _ => none
  | fuel + 1, acc, cs =>
    match skipWs cs with
    | ',' :: rest => do
      let (k, v, r) ← parseMember fuel rest
      parseObjRest fuel (acc ++ [(k, v)]) r
    | '\x7d' :: rest => some (JsonValue.obj acc, rest)
    | _ => none

end

/-- `JSON.parse`: parse a single JSON value and require only whitespace to
follow.  The fuel is generous enough for any input of this length. -/
def parseJson (s : String) : Option JsonValue :=
  match parseValue (4 * s.data.length + 16) s.data with
  | some (v, rest) => if (skipWs rest).isEmpty then some v else none
  | none => none

/-- Global left-to-right deletion of every occurrence of the 7-character
token matched by the regex `/\x60\x60\x60json\n?/g` (three backticks, then
`json`, then one optional newline).  Matches JavaScript `String.replace`
with the global flag: non-overlapping matches of the original string,
scanned left to right. -/
def stripJsonFence : List Char → List Char
  | '\x60' :: '\x60' :: '\x60' :: 'j' :: 's' :: 'o' :: 'n' :: '\n' :: rest => stripJsonFence rest
  | '\x60' :: '\x60' :: '\x60' :: 'j' :: 's' :: 'o' :: 'n' :: rest => stripJsonFence rest
  | c :: rest => c :: stripJsonFence rest
  | [] => []

/-- Global left-to-right deletion of every match of `/\x60\x60\x60\n?/g`
(three backticks plus one optional newline). -/
def stripFence : List Char → List Char
  | '\x60' :: '\x60' :: '\x60' :: '\n' :: rest => stripFence rest
  | '\x60' :: '\x60' :: '\x60' :: rest => stripFence rest
  | c :: rest => c :: stripFence rest
  | [] => []

/-- Whitespace removed by JavaScript `String.trim` (ASCII part plus NBSP). -/
def jsTrimWs (c : Char) : Bool :=
  c == ' ' || c == '\t' || c == '\n' || c == '\r' || c == '\x0b' || c == '\x0c' || c == '\xa0'

/-- JavaScript `s.trim()`. -/
def trimTok (cs : List Char) : List Char :=
  ((cs.dropWhile jsTrimWs).reverse.dropWhile jsTrimWs).reverse

/-- The `cleanedText` computation of `sendMessage`:
`text.replace(/\x60\x60\x60json\n?/g, '').replace(/\x60\x60\x60\n?/g, '').trim()`. -/
def cleanText (text : String) : String :=
  ⟨trimTok (stripFence (stripJsonFence text.data))⟩

/-- `SupportedLanguage` of `chat.dto.ts`. -/
inductive SupportedLanguage where
  | english
  | japanese
  | korean
  | chinese
  | french
  | german
  | spanish
deriving DecidableEq

/-- `LanguageConfig` of `chat.service.ts`. -/
structure LanguageConfig where
  name : String
  nativeName : String
  tutorDescription : String
  pronunciationSystem : String
  pronunciationExample : String
  exampleOriginal : String
  exampleCorrection : String
  exampleCorrectionPronunciation : String
  exampleExplanation : String
  exampleReply : String
  examplePronunciation : String
  specialRules : List String

/-- `LANGUAGE_CONFIGS`, transcribed from the source (apostrophes written
`\x27`, double quotes `\"`). -/
def LANGUAGE_CONFIGS : SupportedLanguage → LanguageConfig
  | SupportedLanguage.english =>
    { name := "English"
      nativeName := "English"
      tutorDescription := "a professional British/American English speaking tutor"
      pronunciationSystem := "IPA (International Phonetic Alphabet) with American English symbols"
      pronunciationExample := "/ɡreɪt ˈɛfərt!/"
      exampleOriginal := "I go to school yesterday"
      exampleCorrection := "I went to school yesterday"
      exampleCorrectionPronunciation := "/aɪ wɛnt tu skul ˈjɛstərˌdeɪ/"
      exampleExplanation := "We use \x27went\x27 (past tense) because \x27yesterday\x27 indicates a past time."
      exampleReply := "Great effort! You\x27re talking about the past, so we use \x27went\x27 instead of \x27go\x27. Can you tell me more about what you did at school yesterday?"
      examplePronunciation := "/ɡreɪt ˈɛfərt! jʊr ˈtɔkɪŋ əˈbaʊt ðə pæst/"
      specialRules := [
        "Use primary stress mark ˈ before stressed syllables",
        "Focus on common pronunciation mistakes for non-native speakers"] }
  | SupportedLanguage.japanese =>
    { name := "Japanese"
      nativeName := "日本語"
      tutorDescription := "a professional Japanese language tutor (日本語の先生)"
      pronunciationSystem := "Romaji with pitch accent markers (High: ꜛ, Low: ꜜ) and Hiragana reading"
      pronunciationExample := "すꜛごꜜい (sugoi)"
      exampleOriginal := "昨日学校に行くました"
      exampleCorrection := "昨日学校に行きました"
      exampleCorrectionPronunciation := "きꜛのꜜう がꜛっこꜜうに いꜛきまꜜした (kinou gakkou ni ikimashita)"
      exampleExplanation := "「行く」の過去形は「行きました」です。「行くました」は文法的に正しくありません。"
      exampleReply := "いい調子ですね！過去形の練習をしましょう。昨日、学校で何をしましたか？"
      examplePronunciation := "いꜛいꜜ ちょꜛうしꜜ ですꜜね (ii choushi desu ne)"
      specialRules := [
        "Pay attention to particle usage (は, が, を, に, で, etc.)",
        "Check verb conjugation forms (て形, た形, ます形)",
        "Watch for keigo (敬語) politeness levels",
        "Include both Hiragana reading and Romaji for pronunciation"] }
  | SupportedLanguage.korean =>
    { name := "Korean"
      nativeName := "한국어"
      tutorDescription := "a professional Korean language tutor (한국어 선생님)"
      pronunciationSystem := "Revised Romanization with Hangul"
      pronunciationExample := "잘했어요 (jalhaesseoyo)"
      exampleOriginal := "어제 학교에 가요"
      exampleCorrection := "어제 학교에 갔어요"
      exampleCorrectionPronunciation := "어제 학교에 갔어요 (eoje hakgyoe gasseoyo)"
      exampleExplanation := "과거를 표현할 때는 \x27-았/었어요\x27를 사용합니다. \x27가요\x27는 현재형이에요."
      exampleReply := "잘하고 있어요! 과거형 연습을 해볼까요? 어제 학교에서 뭐 했어요?"
      examplePronunciation := "잘하고 있어요 (jalhago isseoyo)"
      specialRules := [
        "Check for proper honorific levels (존댓말/반말)",
        "Watch for particle usage (은/는, 이/가, 을/를)",
        "Pay attention to verb conjugation (past, present, future)",
        "Note pronunciation changes (연음, 경음화, etc.)"] }
  | SupportedLanguage.chinese =>
    { name := "Chinese"
      nativeName := "中文"
      tutorDescription := "a professional Mandarin Chinese tutor (中文老师)"
      pronunciationSystem := "Pinyin with tone marks (1: ā, 2: á, 3: ǎ, 4: à)"
      pronunciationExample := "hěn bàng! (很棒!)"
      exampleOriginal := "我昨天去学校了"
      exampleCorrection := "我昨天去学校了"
      exampleCorrectionPronunciation := "wǒ zuótiān qù xuéxiào le"
      exampleExplanation := "这句话是正确的！\"了\"表示动作完成，用得很好。"
      exampleReply := "说得很好！你的中文在进步。昨天在学校做了什么？"
      examplePronunciation := "shuō de hěn hǎo! nǐ de zhōngwén zài jìnbù."
      specialRules := [
        "Always include tone marks in Pinyin",
        "Check for measure word (量词) usage",
        "Watch for aspect markers (了, 过, 着)",
        "Pay attention to word order (SVO structure)"] }
  | SupportedLanguage.french =>
    { name := "French"
      nativeName := "Français"
      tutorDescription := "a professional French language tutor (professeur de français)"
      pronunciationSystem := "IPA with French phonemes and liaison markers"
      pronunciationExample := "/tʁɛ bjɛ̃/ (très bien)"
      exampleOriginal := "Je suis allé à école hier"
      exampleCorrection := "Je suis allé à l\x27école hier"
      exampleCorrectionPronunciation := "/ʒə sɥi‿ale a lekɔl jɛʁ/"
      exampleExplanation := "On utilise l\x27article défini contracté \"l\x27\" devant \"école\" car le mot commence par une voyelle."
      exampleReply := "Très bien ! N\x27oubliez pas les articles. Qu\x27avez-vous fait à l\x27école hier ?"
      examplePronunciation := "/tʁɛ bjɛ̃! nublije pa lez‿aʁtikl/"
      specialRules := [
        "Check for gender agreement (le/la, un/une)",
        "Watch for verb conjugation and tense agreement",
        "Note liaisons between words",
        "Pay attention to accent marks (é, è, ê, ë, etc.)"] }
  | SupportedLanguage.german =>
    { name := "German"
      nativeName := "Deutsch"
      tutorDescription := "a professional German language tutor (Deutschlehrer)"
      pronunciationSystem := "IPA with German phonemes"
      pronunciationExample := "/zeːɐ̯ guːt/ (sehr gut)"
      exampleOriginal := "Ich bin gestern in die Schule gegangen"
      exampleCorrection := "Ich bin gestern in die Schule gegangen"
      exampleCorrectionPronunciation := "/ɪç bɪn ˈɡɛstɐn ɪn diː ˈʃuːlə ɡəˈɡaŋən/"
      exampleExplanation := "Perfekt! Der Satz ist grammatikalisch korrekt. \"Gegangen\" ist das Partizip II von \"gehen\"."
      exampleReply := "Sehr gut! Dein Deutsch ist ausgezeichnet. Was hast du gestern in der Schule gemacht?"
      examplePronunciation := "/zeːɐ̯ guːt! daɪn dɔʏtʃ ɪst ˈaʊsɡəˌtsaɪçnət/"
      specialRules := [
        "Check for correct case usage (Nominativ, Akkusativ, Dativ, Genitiv)",
        "Watch for verb position in main and subordinate clauses",
        "Pay attention to noun gender (der, die, das)",
        "Note separable prefix verbs"] }
  | SupportedLanguage.spanish =>
    { name := "Spanish"
      nativeName := "Español"
      tutorDescription := "a professional Spanish language tutor (profesor de español)"
      pronunciationSystem := "IPA with Spanish phonemes"
      pronunciationExample := "/ˈmui ˈbjen/ (muy bien)"
      exampleOriginal := "Yo fui a la escuela ayer"
      exampleCorrection := "Ayer fui a la escuela"
      exampleCorrectionPronunciation := "/aˈʝeɾ fwi a la esˈkwela/"
      exampleExplanation := "En español, es más natural poner el tiempo al principio. También, el pronombre \"yo\" es opcional porque el verbo ya indica la persona."
      exampleReply := "¡Muy bien! Tu español está mejorando. ¿Qué hiciste en la escuela ayer?"
      examplePronunciation := "/ˈmui ˈbjen! tu espaˈɲol esˈta mexoˈɾando/"
      specialRules := [
        "Check for correct verb conjugation (especially irregular verbs)",
        "Watch for ser vs estar usage",
        "Pay attention to gender and number agreement",
        "Note the use of subjunctive mood when appropriate"] }

/-- `ChatService.getSystemPrompt`: the template literal of the source,
with `\x24\x7bconfig.field\x7d` interpolations rendered as appends and the
literal braces of the JSON example written `\x7b`/`\x7d`. -/
def getSystemPrompt (language : SupportedLanguage) : String :=
  let config := LANGUAGE_CONFIGS language
  let specialRulesText :=
    String.intercalate "\n"
      (config.specialRules.enum.map (fun p => toString (p.1 + 8) ++ ". " ++ p.2))
  "You are " ++ config.tutorDescription ++
  ". Your role is to help students improve their " ++ config.name ++
  " (" ++ config.nativeName ++ ") speaking skills.\n\n" ++
  "When a student speaks, you must respond in a structured JSON format with the following fields:\n" ++
  "- original: The original text the student said (exactly as they said it)\n" ++
  "- correction: The corrected version if there are any grammar, pronunciation, or vocabulary mistakes\n" ++
  "- correctionPronunciation: " ++ config.pronunciationSystem ++
  " transcription of the CORRECTED sentence (this helps students practice the correct pronunciation)\n" ++
  "- explanation: A brief, friendly explanation of the correction (if any mistakes were found) - respond in " ++
  config.name ++ "\n" ++
  "- reply: Your natural, conversational reply as a tutor in " ++ config.name ++
  " (encourage the student, ask follow-up questions, or provide feedback)\n" ++
  "- pronunciation: " ++ config.pronunciationSystem ++ " transcription of your reply\n\n" ++
  "IMPORTANT RULES:\n" ++
  "1. Always return valid JSON only, no additional text before or after\n" ++
  "2. If the student\x27s " ++ config.name ++
  " is perfect, set \"correction\" to the same as \"original\" and \"correctionPronunciation\" to the pronunciation of the original\n" ++
  "3. Be encouraging and friendly in your \"reply\" - always respond in " ++ config.name ++ "\n" ++
  "4. Focus on natural conversation flow in " ++ config.name ++ "\n" ++
  "5. If the student makes multiple mistakes, correct the most important ones\n" ++
  "6. For pronunciation fields, always use " ++ config.pronunciationSystem ++ "\n" ++
  "7. The \"correctionPronunciation\" field is REQUIRED - it helps students practice saying the sentence correctly\n" ++
  specialRulesText ++ "\n\n" ++
  "Example response format:\n\x7b\n" ++
  "  \"original\": \"" ++ config.exampleOriginal ++ "\",\n" ++
  "  \"correction\": \"" ++ config.exampleCorrection ++ "\",\n" ++
  "  \"correctionPronunciation\": \"" ++ config.exampleCorrectionPronunciation ++ "\",\n" ++
  "  \"explanation\": \"" ++ config.exampleExplanation ++ "\",\n" ++
  "  \"reply\": \"" ++ config.exampleReply ++ "\",\n" ++
  "  \"pronunciation\": \"" ++ config.examplePronunciation ++ "\"\n\x7d"

/-- Roles of a conversation turn. -/
inductive Role where
  | user
  | assistant
deriving DecidableEq

/-- `ChatMessageData` of `chat.dto.ts`: the optional structured payload of
an assistant turn (all fields optional strings). -/
structure ChatMessageData where
  original : Option String := none
  correction : Option String := none
  correctionPronunciation : Option String := none
  explanation : Option String := none
  reply : Option String := none
  pronunciation : Option String := none
deriving DecidableEq

/-- `ChatMessage` of `chat.dto.ts` (the `id`/`timestamp` metadata fields
play no role in the service and are omitted). -/
structure ChatMessage where
  role : Role
  content : String
  data : Option ChatMessageData := none
deriving DecidableEq

/-- `HttpException(message, status)` as thrown by `sendMessage`. -/
structure HttpException where
  message : String
  status : Nat
deriving DecidableEq

/-- `ChatResponseDto`: `data` is whatever object `JSON.parse` produced (the
parse-success path performs no field validation), so it is a raw
`JsonValue`. -/
structure ChatResponseDto where
  success : Bool
  data : JsonValue

/-- The history-rendering lambda of `sendMessage`: `Student: <content>` for
user turns, `Tutor: <data.reply>` for assistant turns whose `data?.reply`
is truthy (present and non-empty), `""` otherwise. -/
def renderMsg (msg : ChatMessage) : String :=
  match msg.role with
  | Role.user => "Student: " ++ msg.content
  | Role.assistant =>
    match msg.data with
    | some d =>
      match d.reply with
      | some r => if r == "" then "" else "Tutor: " ++ r
      | none => ""
    | none => ""

/-- The `historyContext` computation of `sendMessage`: window the history to
the last 10 turns (`slice(-10)`), render each retained turn, drop the empty
renderings (`filter(Boolean)`), join with newlines; an empty history yields
the start-of-conversation marker. -/
def historyContext (chatHistory : List ChatMessage) : String :=
  let recentHistory := chatHistory.drop (chatHistory.length - 10)
  if recentHistory.length > 0 then
    String.intercalate "\n" ((recentHistory.map renderMsg).filter (fun s => s != ""))
  else
    "This is the start of the conversation."

/-- The response-normalization step of `sendMessage`: strip fences, trim,
`JSON.parse`; on success wrap the parsed value as-is, on failure build the
degraded `TutorResponse` (this branch cannot raise). -/
def normalizeResponse (userMessage text : String) : ChatResponseDto :=
  match parseJson (cleanText text) with
  | some jsonResponse => { success := true, data := jsonResponse }
  | none =>
    { success := true
      data := JsonValue.obj [
        ("original", JsonValue.str userMessage),
        ("correction", JsonValue.str userMessage),
        ("correctionPronunciation", JsonValue.str ""),
        ("explanation", JsonValue.str ""),
        ("reply", JsonValue.str text),
        ("pronunciation", JsonValue.str "")] }

/-- `ChatService.sendMessage`.  `gen idx prompt` is the outcome of invoking
the backing model at position `idx` with `prompt`.  The returned `Nat` is
the cursor after the call.  The catch-block classification follows the
source: an error message containing `API_KEY` maps to the 500
invalid-API-key condition, then a rate-limit-classified error maps to the
429 all-models-rate-limited condition, anything else to the generic 500. -/
def sendMessage (gen : Nat → String → Except String String) (userMessage : String)
    (chatHistory : List ChatMessage) (targetLanguage : SupportedLanguage) (cursor : Nat) :
    Except HttpException ChatResponseDto × Nat :=
  let systemPrompt := getSystemPrompt targetLanguage
  let fullPrompt := systemPrompt ++ "\n\nConversation History:\n" ++
    historyContext chatHistory ++ "\n\nStudent: " ++ userMessage ++
    "\n\nTutor (respond in JSON format):"
  match generateWithFallback (fun idx => gen idx fullPrompt) cursor with
  | (Except.ok text, cursor2) => (Except.ok (normalizeResponse userMessage text), cursor2)
  | (Except.error e, cursor2) =>
    if includesStr e "API_KEY" then
      (Except.error { message := "Invalid API key configuration", status := 500 }, cursor2)
    else if isRateLimitError e then
      (Except.error { message := "All AI models are currently rate limited. Please try again later.", status := 429 }, cursor2)
    else
      (Except.error { message := "Failed to get AI response: " ++ (if e == "" then "Unknown error" else e), status := 500 }, cursor2)

/-- `SendMessageDto` of `chat.dto.ts`: `targetLanguage` and `chatHistory`
are optional. -/
structure SendMessageDto where
  message : String
  targetLanguage : Option SupportedLanguage := none
  chatHistory : Option (List ChatMessage) := none

/-- `ChatController.sendMessage`: forwards the body to the service, passing
`dto.targetLanguage || 'english'` (every supported-language value is a
truthy string, so `||` is exactly `Option.getD`) and the possibly-absent
history (which the service parameter defaults to `[]`). -/
def chatControllerSendMessage (gen : Nat → String → Except String String)
    (dto : SendMessageDto) (cursor : Nat) : Except HttpException ChatResponseDto × Nat :=
  sendMessage gen dto.message (dto.chatHistory.getD [])
    (dto.targetLanguage.getD SupportedLanguage.english) cursor

/-- Last-occurrence string field check: JavaScript object literals keep the
last duplicate key, so lookups take the last matching member. -/
def strFieldB (fields : List (String × JsonValue)) (k : String) : Bool :=
  match (fields.filter (fun p => p.1 == k)).getLast? with
  | some (_, JsonValue.str _) => true
  | _ => false

/-- Whether a JSON value has the shape the spec calls a `TutorResponse`: an
object whose six fields are all present with plain string values. -/
def tutorFieldsAllStrings : JsonValue → Bool
  | JsonValue.obj fields =>
    strFieldB fields "original" && strFieldB fields "correction" &&
    strFieldB fields "correctionPronunciation" && strFieldB fields "explanation" &&
    strFieldB fields "reply" && strFieldB fields "pronunciation"
  | _ => false

/-- The string stored under key `k` of a JSON object (empty string when
absent or not a string); observer used to tell JSON objects apart. -/
def strAt (k : String) (v : JsonValue) : String :=
  match v with
  | JsonValue.obj fields =>
    match (fields.filter (fun p => p.1 == k)).getLast? with
    | some (_, JsonValue.str s) => s
    | _ => ""
  | _ => ""

/-- Provider fake: positions 0 and 1 rate-limited, position 2 succeeds. -/
def genScanA : Nat → Except String String :=
  fun i => if i == 2 then Except.ok "response-from-2" else Except.error "429 Too Many Requests"

/-- Provider fake: position 2 succeeds, any other position would abort the
loop with a non-rate-limit error (so success proves position 2 was tried
first). -/
def genScanB : Nat → Except String String :=
  fun i => if i == 2 then Except.ok "response-from-2-again" else Except.error "internal failure"

/-- Provider fake: position 0 fails with a non-rate-limit error while
position 1 would succeed. -/
def genNonRL : Nat → Except String String :=
  fun i => if i == 0 then Except.error "Internal server error" else Except.ok "unreached"

/-- Provider fake: every model, for every prompt, is rate limited. -/
def genAllRL : Nat → String → Except String String :=
  fun _ _ => Except.error "429 Too Many Requests"

/-- Provider fake: every model is rate limited with a message that also
contains the substring `API_KEY`. -/
def genApiKeyRL : Nat → String → Except String String :=
  fun _ _ => Except.error "429 rate limit: API_KEY quota exceeded"

/-- Provider fake: every model succeeds. -/
def genOkConst : Nat → Except String String := fun _ => Except.ok "hello"

/-- Provider fake: every model is rate limited (bare 429). -/
def genErrConst : Nat → Except String String := fun _ => Except.error "429"

/-- Five early turns, to be dropped by the 10-turn window. -/
def histPre : List ChatMessage :=
  [⟨Role.user, "p1", none⟩, ⟨Role.user, "p2", none⟩, ⟨Role.user, "p3", none⟩,
   ⟨Role.user, "p4", none⟩, ⟨Role.user, "p5", none⟩]

/-- Ten retained turns: seven user turns, an assistant turn with a reply,
an assistant turn with no payload, a final user turn. -/
def histTen : List ChatMessage :=
  [⟨Role.user, "t1", none⟩, ⟨Role.user, "t2", none⟩, ⟨Role.user, "t3", none⟩,
   ⟨Role.user, "t4", none⟩, ⟨Role.user, "t5", none⟩, ⟨Role.user, "t6", none⟩,
   ⟨Role.user, "t7", none⟩,
   ⟨Role.assistant, "a8", some { reply := some "r8" }⟩,
   ⟨Role.assistant, "a9", none⟩,
   ⟨Role.user, "t10", none⟩]

/-- A valid JSON object whose `reply` string value contains three
backticks. -/
def fencedRaw : String :=
  "\x7b\"original\":\"o\",\"correction\":\"c\",\"correctionPronunciation\":\"cp\",\"explanation\":\"e\",\"reply\":\"x\x60\x60\x60y\",\"pronunciation\":\"p\"\x7d"

/-- What `JSON.parse` yields on `fencedRaw` itself. -/
def fencedObj : JsonValue :=
  JsonValue.obj [("original", JsonValue.str "o"), ("correction", JsonValue.str "c"),
    ("correctionPronunciation", JsonValue.str "cp"), ("explanation", JsonValue.str "e"),
    ("reply", JsonValue.str "x\x60\x60\x60y"), ("pronunciation", JsonValue.str "p")]

/-- What the normalizer actually parses after fence deletion: the backticks
inside the `reply` string value are gone. -/
def alteredObj : JsonValue :=
  JsonValue.obj [("original", JsonValue.str "o"), ("correction", JsonValue.str "c"),
    ("correctionPronunciation", JsonValue.str "cp"), ("explanation", JsonValue.str "e"),
    ("reply", JsonValue.str "xy"), ("pronunciation", JsonValue.str "p")]

/-- If the first `k` probed positions fail with rate-limit errors and the
next one succeeds, the loop returns that success and that position. -/
theorem fallbackGo_success (gen : Nat → Except String String) (n start : Nat) :
    ∀ (k i fuel : Nat) (le : Option String) (t : String), k < fuel →
    (∀ j, j < k → ∃ e, gen ((start + (i + j)) % n) = Except.error e ∧ isRateLimitError e = true) →
    gen ((start + (i + k)) % n) = Except.ok t →
    fallbackGo gen n start i fuel le = (Except.ok t, (start + (i + k)) % n) := by
  intro k
  induction k with
  | zero =>
    intro i fuel le t hfuel _hfail hsucc
    obtain ⟨f, rfl⟩ : ∃ f, fuel = f + 1 := ⟨fuel - 1, by omega⟩
    simp only [Nat.add_zero] at hsucc
    simp [fallbackGo, hsucc]
  | succ k ih =>
    intro i fuel le t hfuel hfail hsucc
    obtain ⟨f, rfl⟩ : ∃ f, fuel = f + 1 := ⟨fuel - 1, by omega⟩
    obtain ⟨e, he, hrl⟩ := hfail 0 (Nat.succ_pos k)
    simp only [Nat.add_zero] at he
    have step : fallbackGo gen n start i (f + 1) le = fallbackGo gen n start (i + 1) f (some e) := by
      simp [fallbackGo, he, hrl]
    rw [step]
    have hfail2 : ∀ j, j < k →
        ∃ e2, gen ((start + (i + 1 + j)) % n) = Except.error e2 ∧ isRateLimitError e2 = true := by
      intro j hj
      have h := hfail (j + 1) (by omega)
      have e1 : i + (j + 1) = i + 1 + j := by omega
      rw [e1] at h
      exact h
    have hsucc2 : gen ((start + (i + 1 + k)) % n) = Except.ok t := by
      have e1 : i + 1 + k = i + (k + 1) := by omega
      rw [e1]
      exact hsucc
    have hres := ih (i + 1) f (some e) t (by omega) hfail2 hsucc2
    rw [hres]
    have e2 : i + 1 + k = i + (k + 1) := by omega
    rw [e2]

/-- If the first `k` probed positions fail with rate-limit errors and the
next one fails with a non-rate-limit error, the loop stops there,
propagates that error unchanged and leaves the cursor at `start`.  The
hypotheses constrain `gen` only at the first `k + 1` probed positions, so
the conclusion also shows no later model is consulted. -/
theorem fallbackGo_abort (gen : Nat → Except String String) (n start : Nat) :
    ∀ (k i fuel : Nat) (le : Option String) (e : String), k < fuel →
    (∀ j, j < k → ∃ e2, gen ((start + (i + j)) % n) = Except.error e2 ∧ isRateLimitError e2 = true) →
    gen ((start + (i + k)) % n) = Except.error e →
    isRateLimitError e = false →
    fallbackGo gen n start i fuel le = (Except.error e, start) := by
  intro k
  induction k with
  | zero =>
    intro i fuel le e hfuel _hfail herr hnr
    obtain ⟨f, rfl⟩ : ∃ f, fuel = f + 1 := ⟨fuel - 1, by omega⟩
    simp only [Nat.add_zero] at herr
    simp [fallbackGo, herr, hnr]
  | succ k ih =>
    intro i fuel le e hfuel hfail herr hnr
    obtain ⟨f, rfl⟩ : ∃ f, fuel = f + 1 := ⟨fuel - 1, by omega⟩
    obtain ⟨e0, he0, hrl0⟩ := hfail 0 (Nat.succ_pos k)
    simp only [Nat.add_zero] at he0
    have step : fallbackGo gen n start i (f + 1) le = fallbackGo gen n start (i + 1) f (some e0) := by
      simp [fallbackGo, he0, hrl0]
    rw [step]
    have hfail2 : ∀ j, j < k →
        ∃ e2, gen ((start + (i + 1 + j)) % n) = Except.error e2 ∧ isRateLimitError e2 = true := by
      intro j hj
      have h := hfail (j + 1) (by omega)
      have e1 : i + (j + 1) = i + 1 + j := by omega
      rw [e1] at h
      exact h
    have herr2 : gen ((start + (i + 1 + k)) % n) = Except.error e := by
      have e1 : i + 1 + k = i + (k + 1) := by omega
      rw [e1]
      exact herr
    exact ih (i + 1) f (some e0) e (by omega) hfail2 herr2 hnr

/-- If every one of the `fuel` remaining probes fails with a rate-limit
error, the loop exhausts its iterations and throws the last of those
errors, leaving the cursor at `start`. -/
theorem fallbackGo_exhaust (gen : Nat → Except String String) (n start : Nat) (es : Nat → String) :
    ∀ (fuel i : Nat) (le : Option String), 0 < fuel →
    (∀ j, j < fuel →
      gen ((start + (i + j)) % n) = Except.error (es (i + j)) ∧ isRateLimitError (es (i + j)) = true) →
    fallbackGo gen n start i fuel le = (Except.error (es (i + (fuel - 1))), start) := by
  intro fuel
  induction fuel with
  | zero => intro i le h; omega
  | succ f ih =>
    intro i le _hpos hfail
    obtain ⟨h0, hrl0⟩ := hfail 0 (Nat.succ_pos f)
    simp only [Nat.add_zero] at h0 hrl0
    have step : fallbackGo gen n start i (f + 1) le = fallbackGo gen n start (i + 1) f (some (es i)) := by
      simp [fallbackGo, h0, hrl0]
    cases f with
    | zero =>
      rw [step]
      simp [fallbackGo]
    | succ f2 =>
      rw [step]
      have hfail2 : ∀ j, j < f2 + 1 →
          gen ((start + (i + 1 + j)) % n) = Except.error (es (i + 1 + j)) ∧
          isRateLimitError (es (i + 1 + j)) = true := by
        intro j hj
        have h := hfail (j + 1) (by omega)
        have e1 : i + (j + 1) = i + 1 + j := by omega
        rw [e1] at h
        exact h
      have hres := ih (i + 1) (some (es i)) (Nat.succ_pos f2) hfail2
      have e2 : i + 1 + (f2 + 1 - 1) = i + (f2 + 1 + 1 - 1) := by omega
      rw [e2] at hres
      exact hres

/-- Cursor behavior of the loop: on an error outcome the cursor is left at
`start`; on a success outcome it is a valid position and points at the
model whose invocation succeeded. -/
theorem fallbackGo_cursor (gen : Nat → Except String String) (n start : Nat) (hn : 0 < n) :
    ∀ (fuel i : Nat) (le : Option String),
      (∀ e, (fallbackGo gen n start i fuel le).1 = Except.error e →
        (fallbackGo gen n start i fuel le).2 = start) ∧
      (∀ t, (fallbackGo gen n start i fuel le).1 = Except.ok t →
        (fallbackGo gen n start i fuel le).2 < n ∧
        gen ((fallbackGo gen n start i fuel le).2) = Except.ok t) := by
  intro fuel
  induction fuel with
  | zero =>
    intro i le
    constructor
    · intro e _
      rfl
    · intro t ht
      simp [fallbackGo] at ht
  | succ f ih =>
    intro i le
    cases hgen : gen ((start + i) % n) with
    | ok t0 =>
      have hred : fallbackGo gen n start i (f + 1) le = (Except.ok t0, (start + i) % n) := by
        simp [fallbackGo, hgen]
      constructor
      · intro e he
        rw [hred] at he
        simp at he
      · intro t ht
        rw [hred] at ht
        simp at ht
        rw [hred]
        subst ht
        exact ⟨Nat.mod_lt _ hn, hgen⟩
    | error e0 =>
      by_cases hrl : isRateLimitError e0 = true
      · have hred : fallbackGo gen n start i (f + 1) le =
            fallbackGo gen n start (i + 1) f (some e0) := by
          simp [fallbackGo, hgen, hrl]
        rw [hred]
        exact ih (i + 1) (some e0)
      · have hrl2 : isRateLimitError e0 = false := by
          simpa using hrl
        have hred : fallbackGo gen n start i (f + 1) le = (Except.error e0, start) := by
          simp [fallbackGo, hgen, hrl2]
        constructor
        · intro e _he
          rw [hred]
        · intro t ht
          rw [hred] at ht
          simp at ht

/-- C1: the fallback loop probes positions `(start + i) mod n` for
`i = 0, 1, ...` strictly in order; as soon as one of them succeeds it
returns that model's raw text and sets the cursor to that model's
position. -/
theorem generateWithFallback_sequential_scan
    (gen : Nat → Except String String) (start k : Nat) (t : String)
    (hk : k < GEMINI_MODELS.length)
    (hfail : ∀ i, i < k →
      ∃ e, gen ((start + i) % GEMINI_MODELS.length) = Except.error e ∧ isRateLimitError e = true)
    (hsucc : gen ((start + k) % GEMINI_MODELS.length) = Except.ok t) :
    generateWithFallback gen start = (Except.ok t, (start + k) % GEMINI_MODELS.length) := by
  unfold generateWithFallback
  have hres := fallbackGo_success gen GEMINI_MODELS.length start k 0 GEMINI_MODELS.length none t hk
    (by intro j hj; simpa using hfail j hj)
    (by simpa using hsucc)
  simpa using hres

/-- C1 witness: with the cursor at 0, models 0 and 1 rate limited and model
2 succeeding, the call returns model 2's text and cursor 2; a next call
starting from cursor 2 tries model 2 first (its fake fails the request on
any other first probe). -/
theorem generateWithFallback_sequential_scan_witness :
    generateWithFallback genScanA 0 = (Except.ok "response-from-2", 2) ∧
    generateWithFallback genScanB 2 = (Except.ok "response-from-2-again", 2) := by
  constructor
  · have h := generateWithFallback_sequential_scan genScanA 0 2 "response-from-2"
      (by decide)
      (by
        intro i hi
        refine ⟨"429 Too Many Requests", ?_, by decide⟩
        interval_cases i <;> rfl)
      (by rfl)
    exact h
  · have h := generateWithFallback_sequential_scan genScanB 2 0 "response-from-2-again"
      (by decide)
      (by intro i hi; omega)
      (by rfl)
    exact h

/-- C3: if the first non-rate-limit failure occurs at probe `k`, the loop
aborts at once with exactly that error, leaves the cursor at `start`, and —
because the hypotheses constrain the provider only at the first `k + 1`
probed positions — consults no further candidate model. -/
theorem generateWithFallback_nonRateLimit_aborts
    (gen : Nat → Except String String) (start k : Nat) (e : String)
    (hk : k < GEMINI_MODELS.length)
    (hfail : ∀ i, i < k →
      ∃ e2, gen ((start + i) % GEMINI_MODELS.length) = Except.error e2 ∧ isRateLimitError e2 = true)
    (herr : gen ((start + k) % GEMINI_MODELS.length) = Except.error e)
    (hnr : isRateLimitError e = false) :
    generateWithFallback gen start = (Except.error e, start) := by
  unfold generateWithFallback
  exact fallbackGo_abort gen GEMINI_MODELS.length start k 0 GEMINI_MODELS.length none e hk
    (by intro j hj; simpa using hfail j hj)
    (by simpa using herr)
    hnr

/-- C3 witness: model 0 fails with a non-rate-limit error; the exact error
is propagated, the cursor stays 0, and model 1 (whose fake would succeed)
is never attempted. -/
theorem generateWithFallback_nonRateLimit_aborts_witness :
    generateWithFallback genNonRL 0 = (Except.error "Internal server error", 0) :=
  generateWithFallback_nonRateLimit_aborts genNonRL 0 0 "Internal server error"
    (by decide) (by intro i hi; omega) (by rfl) (by decide)

/-- C2 counterexample: every candidate model fails with an error classified
as rate-limit, yet — because the last error message also contains
`API_KEY`, which the catch block checks first — the caller sees the 500
invalid-API-key condition instead of the 429 all-models-rate-limited
condition the claim promises. -/
theorem sendMessage_all_rate_limited_apiKey_counterexample :
    sendMessage genApiKeyRL "hi" [] SupportedLanguage.english 0 =
      (Except.error { message := "Invalid API key configuration", status := 500 }, 0) ∧
    "Invalid API key configuration" ≠
      "All AI models are currently rate limited. Please try again later." :=
  ⟨rfl, by decide⟩

/-- C2 (amended): if all `n` candidates fail with rate-limit errors, the
gateway raises exactly one terminal error — the last rate-limit error
encountered — with the cursor unchanged, and, provided that last error's
message does not contain `API_KEY`, the caller sees the distinct 429
"all models currently rate limited" condition. -/
theorem sendMessage_all_rate_limited
    (genP : Nat → String → Except String String)
    (um : String) (hist : List ChatMessage) (lang : SupportedLanguage) (start : Nat)
    (es : Nat → String)
    (hfail : ∀ i, i < GEMINI_MODELS.length →
      ∀ p, genP ((start + i) % GEMINI_MODELS.length) p = Except.error (es i))
    (hrl : ∀ i, i < GEMINI_MODELS.length → isRateLimitError (es i) = true)
    (hak : includesStr (es (GEMINI_MODELS.length - 1)) "API_KEY" = false) :
    (∀ p, generateWithFallback (fun idx => genP idx p) start =
      (Except.error (es (GEMINI_MODELS.length - 1)), start)) ∧
    sendMessage genP um hist lang start =
      (Except.error { message := "All AI models are currently rate limited. Please try again later.", status := 429 }, start) := by
  have hgw : ∀ p, generateWithFallback (fun idx => genP idx p) start =
      (Except.error (es (GEMINI_MODELS.length - 1)), start) := by
    intro p
    unfold generateWithFallback
    have hres := fallbackGo_exhaust (fun idx => genP idx p) GEMINI_MODELS.length start es
      GEMINI_MODELS.length 0 none (by decide)
      (by
        intro j hj
        simp only [Nat.zero_add]
        exact ⟨hfail j hj p, hrl j hj⟩)
    simpa using hres
  refine ⟨hgw, ?_⟩
  have hrl2 : isRateLimitError (es (GEMINI_MODELS.length - 1)) = true :=
    hrl (GEMINI_MODELS.length - 1) (by decide)
  simp only [sendMessage]
  rw [hgw]
  simp [hak, hrl2]

/-- C2 witness: three rate-limited models (no `API_KEY` in the message)
yield the single 429 all-models-rate-limited condition. -/
theorem sendMessage_all_rate_limited_witness :
    sendMessage genAllRL "hello" [] SupportedLanguage.english 0 =
      (Except.error { message := "All AI models are currently rate limited. Please try again later.", status := 429 }, 0) :=
  (sendMessage_all_rate_limited genAllRL "hello" [] SupportedLanguage.english 0
    (fun _ => "429 Too Many Requests")
    (by intro i _ p; rfl)
    (by intro i _; show isRateLimitError "429 Too Many Requests" = true; decide)
    (by show includesStr "429 Too Many Requests" "API_KEY" = false; decide)).2

/-- Helper: the loop always returns a cursor below the model count when the
starting cursor is (error outcomes keep it, success outcomes produce a
`mod`-reduced position). -/
theorem generateWithFallback_cursor_lt (gen : Nat → Except String String) (start : Nat)
    (hstart : start < GEMINI_MODELS.length) :
    (generateWithFallback gen start).2 < GEMINI_MODELS.length := by
  have hc := fallbackGo_cursor gen GEMINI_MODELS.length start (by decide)
    GEMINI_MODELS.length 0 none
  unfold generateWithFallback
  cases hfst : (fallbackGo gen GEMINI_MODELS.length start 0 GEMINI_MODELS.length none).1 with
  | ok t => exact (hc.2 t hfst).1
  | error e => rw [hc.1 e hfst]; exact hstart

/-- C7: the candidate list is nonempty, the cursor starts at 0, and every
operation preserves `cursor < n`: the loop leaves the cursor at `start` on
any error and moves it to the position of the model that succeeded on
success; `sendMessage` only moves the cursor through the loop. -/
theorem modelCursor_invariant :
    GEMINI_MODELS ≠ [] ∧ initialModelIndex = 0 ∧
    (∀ (gen : Nat → Except String String) (start : Nat), start < GEMINI_MODELS.length →
      (generateWithFallback gen start).2 < GEMINI_MODELS.length ∧
      (∀ e, (generateWithFallback gen start).1 = Except.error e →
        (generateWithFallback gen start).2 = start) ∧
      (∀ t, (generateWithFallback gen start).1 = Except.ok t →
        gen ((generateWithFallback gen start).2) = Except.ok t)) ∧
    (∀ (genP : Nat → String → Except String String) (um : String) (hist : List ChatMessage)
      (lang : SupportedLanguage) (start : Nat), start < GEMINI_MODELS.length →
      (sendMessage genP um hist lang start).2 < GEMINI_MODELS.length) := by
  refine ⟨by decide, rfl, ?_, ?_⟩
  · intro gen start hstart
    have hc := fallbackGo_cursor gen GEMINI_MODELS.length start (by decide)
      GEMINI_MODELS.length 0 none
    exact ⟨generateWithFallback_cursor_lt gen start hstart, hc.1,
      fun t ht => (hc.2 t ht).2⟩
  · intro genP um hist lang start hstart
    have hlt := generateWithFallback_cursor_lt
      (fun idx => genP idx (getSystemPrompt lang ++ "\n\nConversation History:\n" ++
        historyContext hist ++ "\n\nStudent: " ++ um ++ "\n\nTutor (respond in JSON format):"))
      start hstart
    simp only [sendMessage]
    split
    next text cursor2 heq =>
      rw [heq] at hlt
      exact hlt
    next e cursor2 heq =>
      rw [heq] at hlt
      split
      · exact hlt
      · split
        · exact hlt
        · exact hlt

/-- C7 witness: a successful call from cursor 1 returns a valid cursor; an
all-rate-limited call from cursor 2 leaves the cursor at 2. -/
theorem modelCursor_invariant_witness :
    (generateWithFallback genOkConst 1).2 < GEMINI_MODELS.length ∧
    (generateWithFallback genErrConst 2).2 = 2 :=
  ⟨(modelCursor_invariant.2.2.1 genOkConst 1 (by decide)).1,
   (modelCursor_invariant.2.2.1 genErrConst 2 (by decide)).2.1 "429" (by rfl)⟩

/-- C4: when the cleaned model text fails to parse as JSON the normalizer
returns the degraded payload — `original` and `correction` echo the
utterance, `reply` carries the raw unparsed text, the other three fields
are empty — and in every case (parsed or fallback) the result is wrapped
with `success = true`; being a total function, it cannot raise. -/
theorem normalizeResponse_parse_fallback (um text : String) :
    (normalizeResponse um text).success = true ∧
    (parseJson (cleanText text) = none →
      normalizeResponse um text =
        { success := true
          data := JsonValue.obj [
            ("original", JsonValue.str um), ("correction", JsonValue.str um),
            ("correctionPronunciation", JsonValue.str ""), ("explanation", JsonValue.str ""),
            ("reply", JsonValue.str text), ("pronunciation", JsonValue.str "")] }) := by
  constructor
  · cases h : parseJson (cleanText text) <;> simp [normalizeResponse, h]
  · intro h
    simp [normalizeResponse, h]

/-- C4 witness: a plain refusal sentence is not JSON, so the fallback
payload is produced, wrapped in `success = true`. -/
theorem normalizeResponse_parse_fallback_witness :
    (normalizeResponse "hi" "I cannot help with that").success = true ∧
    normalizeResponse "hi" "I cannot help with that" =
      { success := true
        data := JsonValue.obj [
          ("original", JsonValue.str "hi"), ("correction", JsonValue.str "hi"),
          ("correctionPronunciation", JsonValue.str ""), ("explanation", JsonValue.str ""),
          ("reply", JsonValue.str "I cannot help with that"), ("pronunciation", JsonValue.str "")] } :=
  ⟨(normalizeResponse_parse_fallback "hi" "I cannot help with that").1,
   (normalizeResponse_parse_fallback "hi" "I cannot help with that").2 (by rfl)⟩

/-- C5 counterexample: the model output `null` is valid JSON, so the
parse-success path returns `data = JsonValue.null` verbatim — not an object
with six plain string fields, contradicting the claim that every field of
the returned data is a plain string on the parse-success path as well. -/
theorem normalizeResponse_allStrings_counterexample :
    (normalizeResponse "hi" "null").success = true ∧
    (normalizeResponse "hi" "null").data = JsonValue.null ∧
    tutorFieldsAllStrings (normalizeResponse "hi" "null").data = false :=
  ⟨rfl, rfl, rfl⟩

/-- C5 (amended): on the parse-failure fallback path every field of the
returned data is a plain string (the empty string standing in for "none"),
but on the parse-success path the parsed JSON value is returned verbatim
with no field validation, so it need not be an all-strings object. -/
theorem normalizeResponse_field_shape (um text : String) :
    (parseJson (cleanText text) = none →
      tutorFieldsAllStrings (normalizeResponse um text).data = true) ∧
    (∀ v, parseJson (cleanText text) = some v → (normalizeResponse um text).data = v) := by
  constructor
  · intro h
    simp only [normalizeResponse, h]
    rfl
  · intro v h
    simp [normalizeResponse, h]

/-- C5 witness: a non-JSON reply takes the all-strings fallback shape; the
JSON reply `null` is passed through verbatim. -/
theorem normalizeResponse_field_shape_witness :
    tutorFieldsAllStrings (normalizeResponse "hi" "plain text reply").data = true ∧
    (normalizeResponse "hi" "null").data = JsonValue.null :=
  ⟨(normalizeResponse_field_shape "hi" "plain text reply").1 (by rfl),
   (normalizeResponse_field_shape "hi" "null").2 JsonValue.null (by rfl)⟩

/-- C6: the rendered history context is computed from the last 10 turns
only (prepending anything before a 10-turn window leaves it unchanged, so
dropped turns cannot appear in the output); while the history is nonempty
it is exactly the newline-join, in original order, of the per-turn
renderings of the windowed turns — `Student: <content>` for user turns,
`Tutor: <data.reply>` for assistant turns with a non-empty reply, nothing
for the rest — and the empty history renders as the literal
start-of-conversation marker. -/
theorem historyContext_window (pre hist : List ChatMessage) :
    (hist.length = 10 → historyContext (pre ++ hist) = historyContext hist) ∧
    (hist ≠ [] → historyContext hist =
      String.intercalate "\n" (((hist.drop (hist.length - 10)).map (fun msg =>
        match msg.role with
        | Role.user => "Student: " ++ msg.content
        | Role.assistant =>
          match msg.data with
          | some d =>
            match d.reply with
            | some r => if r == "" then "" else "Tutor: " ++ r
            | none => ""
          | none => "")).filter (fun s => s != ""))) ∧
    historyContext ([] : List ChatMessage) = "This is the start of the conversation." := by
  refine ⟨?_, ?_, rfl⟩
  · intro hlen
    have e1 : (pre ++ hist).drop ((pre ++ hist).length - 10) = hist := by
      rw [List.length_append, hlen]
      have e2 : pre.length + 10 - 10 = pre.length := by omega
      rw [e2]
      exact List.drop_left pre hist
    have e3 : hist.drop (hist.length - 10) = hist := by
      rw [hlen]
      simp
    simp only [historyContext, e1, e3]
  · intro hne
    have hpos : (hist.drop (hist.length - 10)).length > 0 := by
      rw [List.length_drop]
      have := List.length_pos.mpr hne
      omega
    simp only [historyContext]
    rw [if_pos hpos]
    have hfun : renderMsg = (fun msg : ChatMessage =>
        match msg.role with
        | Role.user => "Student: " ++ msg.content
        | Role.assistant =>
          match msg.data with
          | some d =>
            match d.reply with
            | some r => if r == "" then "" else "Tutor: " ++ r
            | none => ""
          | none => "") := by
      funext msg
      rcases msg with ⟨role, content, mdata⟩
      cases role
      · rfl
      · rcases mdata with _ | d
        · rfl
        · rcases d with ⟨o, co, cp, ex, rep, pr⟩
          cases rep <;> rfl
    rw [hfun]

/-- C6 witness: with 15 turns the context equals the context of the last
10 alone, and renders them in order (user turns as `Student:`, the
assistant turn with a reply as `Tutor:`, the reply-less assistant turn
contributing nothing). -/
theorem historyContext_window_witness :
    historyContext (histPre ++ histTen) = historyContext histTen ∧
    historyContext histTen =
      "Student: t1\nStudent: t2\nStudent: t3\nStudent: t4\nStudent: t5\nStudent: t6\nStudent: t7\nTutor: r8\nStudent: t10" :=
  ⟨(historyContext_window histPre histTen).1 (by rfl),
   ((historyContext_window histPre histTen).2.1 (by decide)).trans (by rfl)⟩

/-- `leadsWith` agrees with the initial-segment decomposition. -/
theorem leadsWith_iff (nd : List Char) : ∀ hay, leadsWith nd hay = true ↔ ∃ t, hay = nd ++ t := by
  induction nd with
  | nil =>
    intro hay
    simp [leadsWith]
  | cons a as ih =>
    intro hay
    cases hay with
    | nil => simp [leadsWith]
    | cons b bs =>
      rw [leadsWith]
      simp only [Bool.and_eq_true, beq_iff_eq, ih bs]
      constructor
      · rintro ⟨rfl, t, rfl⟩
        exact ⟨t, rfl⟩
      · rintro ⟨t, ht⟩
        injection ht with h1 h2
        exact ⟨h1.symm, t, h2⟩

/-- `occursWithin` agrees with the contiguous-substring decomposition. -/
theorem occursWithin_iff (nd : List Char) : ∀ hay, occursWithin nd hay = true ↔ ∃ a b, hay = a ++ nd ++ b := by
  intro hay
  induction hay with
  | nil =>
    rw [occursWithin, leadsWith_iff]
    constructor
    · rintro ⟨t, ht⟩
      exact ⟨[], t, ht⟩
    · rintro ⟨a, b, h⟩
      obtain ⟨h1, h2⟩ := List.append_eq_nil.mp h.symm
      obtain ⟨h3, h4⟩ := List.append_eq_nil.mp h1
      refine ⟨b, ?_⟩
      rw [h4]
      exact h2.symm
  | cons c rest ih =>
    rw [occursWithin]
    simp only [Bool.or_eq_true, leadsWith_iff, ih]
    constructor
    · rintro (⟨t, ht⟩ | ⟨a, b, h⟩)
      · exact ⟨[], t, ht⟩
      · refine ⟨c :: a, b, ?_⟩
        simp [h]
    · rintro ⟨a, b, h⟩
      cases a with
      | nil =>
        refine Or.inl ⟨b, ?_⟩
        simpa using h
      | cons a0 arest =>
        injection h with h1 h2
        subst h1
        exact Or.inr ⟨arest, b, h2⟩

/-- String append is list append on the underlying data. -/
theorem stringMk_append (a b : List Char) : (String.mk a ++ String.mk b) = String.mk (a ++ b) := rfl

/-- `includesStr` agrees with the string-level substring decomposition. -/
theorem includesStr_iff (s sub : String) :
    includesStr s sub = true ↔ ∃ a b : String, s = a ++ sub ++ b := by
  rw [includesStr, occursWithin_iff]
  constructor
  · rintro ⟨a, b, h⟩
    refine ⟨String.mk a, String.mk b, ?_⟩
    obtain ⟨sd⟩ := s
    obtain ⟨subd⟩ := sub
    rw [stringMk_append, stringMk_append]
    exact congrArg String.mk h
  · rintro ⟨a, b, h⟩
    obtain ⟨ad⟩ := a
    obtain ⟨bd⟩ := b
    obtain ⟨subd⟩ := sub
    refine ⟨ad, bd, ?_⟩
    rw [h]
    rfl

/-- C8: a provider error is classified as rate-limit exactly when its
message, lowercased, contains one of the five marker substrings `429`,
`too many requests`, `resource exhausted`, `quota`, `rate limit`. -/
theorem isRateLimitError_iff (message : String) :
    isRateLimitError message = true ↔
      ∃ needle, needle ∈ (["429", "too many requests", "resource exhausted", "quota", "rate limit"] : List String) ∧
        ∃ a b : String, lowerStr message = a ++ needle ++ b := by
  simp only [isRateLimitError, Bool.or_eq_true, includesStr_iff]
  constructor
  · rintro ((((h | h) | h) | h) | h)
    · exact ⟨"429", by simp, h⟩
    · exact ⟨"too many requests", by simp, h⟩
    · exact ⟨"resource exhausted", by simp, h⟩
    · exact ⟨"quota", by simp, h⟩
    · exact ⟨"rate limit", by simp, h⟩
  · rintro ⟨needle, hmem, h⟩
    simp only [List.mem_cons, List.not_mem_nil, or_false] at hmem
    rcases hmem with rfl | rfl | rfl | rfl | rfl
    · exact Or.inl (Or.inl (Or.inl (Or.inl h)))
    · exact Or.inl (Or.inl (Or.inl (Or.inr h)))
    · exact Or.inl (Or.inl (Or.inr h))
    · exact Or.inl (Or.inr h)
    · exact Or.inr h

/-- C9: omitting `targetLanguage` behaves identically to passing
`english` explicitly — the controller resolves the absent value to
`english` and hands it to the same service call, so the whole observable
outcome (prompt, result, error, cursor) coincides. -/
theorem sendMessage_default_language (gen : Nat → String → Except String String)
    (msg : String) (hist : Option (List ChatMessage)) (cursor : Nat) :
    chatControllerSendMessage gen { message := msg, targetLanguage := none, chatHistory := hist } cursor =
      chatControllerSendMessage gen { message := msg, targetLanguage := some SupportedLanguage.english, chatHistory := hist } cursor ∧
    chatControllerSendMessage gen { message := msg, targetLanguage := none, chatHistory := hist } cursor =
      sendMessage gen msg (hist.getD []) SupportedLanguage.english cursor :=
  ⟨rfl, rfl⟩

/-- A backtick-free prefix passes through `stripFence` untouched. -/
theorem stripFence_cons_ne (c : Char) (l : List Char) (h : ¬ c = '\x60') :
    stripFence (c :: l) = c :: stripFence l := by
  rw [stripFence.eq_def]
  split
  · rename_i rest heq
    injection heq with h1 _
    exact absurd h1 h
  · rename_i rest heq
    injection heq with h1 _
    exact absurd h1 h
  · rename_i c2 rest heq
    injection heq with h1 h2
    subst h1
    subst h2
    rfl
  · rename_i heq
    exact absurd heq (List.cons_ne_nil c l)

/-- A fence not followed by a newline is deleted and scanning resumes. -/
theorem stripFence_fence (b : List Char) (hb : b.head? ≠ some '\n') :
    stripFence ('\x60' :: '\x60' :: '\x60' :: b) = stripFence b := by
  rw [stripFence.eq_def]
  split
  · rename_i rest heq
    injection heq with _ h2
    injection h2 with _ h3
    injection h3 with _ h4
    exact absurd (by rw [h4]; rfl) hb
  · rename_i rest heq
    injection heq with _ h2
    injection h2 with _ h3
    injection h3 with _ h4
    rw [h4]
  · rename_i cv restv hno1 hno2 heq
    injection heq with h1 h2
    exact (hno2 b h1.symm h2.symm).elim
  · rename_i heq
    exact absurd heq (by simp)

/-- A fence followed by a newline is deleted together with that newline. -/
theorem stripFence_fence_nl (b : List Char) :
    stripFence ('\x60' :: '\x60' :: '\x60' :: '\n' :: b) = stripFence b := by
  rw [stripFence.eq_def]
  split
  · rename_i rest heq
    injection heq with _ h2
    injection h2 with _ h3
    injection h3 with _ h4
    injection h4 with _ h5
    rw [h5]
  · rename_i restv hno1 heq
    injection heq with _ h2
    injection h2 with _ h3
    injection h3 with _ h4
    exact (hno1 b h4.symm).elim
  · rename_i cv restv hno1 hno2 heq
    injection heq with h1 h2
    exact (hno1 b h1.symm h2.symm).elim
  · rename_i heq
    exact absurd heq (by simp)

/-- A backtick-free prefix passes through `stripJsonFence` untouched. -/
theorem stripJsonFence_cons_ne (c : Char) (l : List Char) (h : ¬ c = '\x60') :
    stripJsonFence (c :: l) = c :: stripJsonFence l := by
  rw [stripJsonFence.eq_def]
  split
  · rename_i rest heq
    injection heq with h1 _
    exact absurd h1 h
  · rename_i rest heq
    injection heq with h1 _
    exact absurd h1 h
  · rename_i c2 rest heq
    injection heq with h1 h2
    subst h1
    subst h2
    rfl
  · rename_i heq
    exact absurd heq (List.cons_ne_nil c l)

/-- A json fence not followed by a newline is deleted. -/
theorem stripJsonFence_fence (b : List Char) (hb : b.head? ≠ some '\n') :
    stripJsonFence ('\x60' :: '\x60' :: '\x60' :: 'j' :: 's' :: 'o' :: 'n' :: b) =
      stripJsonFence b := by
  rw [stripJsonFence.eq_def]
  split
  · rename_i rest heq
    injection heq with _ h2
    injection h2 with _ h3
    injection h3 with _ h4
    injection h4 with _ h5
    injection h5 with _ h6
    injection h6 with _ h7
    injection h7 with _ h8
    exact absurd (by rw [h8]; rfl) hb
  · rename_i rest heq
    injection heq with _ h2
    injection h2 with _ h3
    injection h3 with _ h4
    injection h4 with _ h5
    injection h5 with _ h6
    injection h6 with _ h7
    injection h7 with _ h8
    rw [h8]
  · rename_i cv restv hno1 hno2 heq
    injection heq with h1 h2
    exact (hno2 b h1.symm h2.symm).elim
  · rename_i heq
    exact absurd heq (by simp)

/-- A json fence followed by a newline is deleted with that newline. -/
theorem stripJsonFence_fence_nl (b : List Char) :
    stripJsonFence ('\x60' :: '\x60' :: '\x60' :: 'j' :: 's' :: 'o' :: 'n' :: '\n' :: b) =
      stripJsonFence b := by
  rw [stripJsonFence.eq_def]
  split
  · rename_i rest heq
    injection heq with _ h2
    injection h2 with _ h3
    injection h3 with _ h4
    injection h4 with _ h5
    injection h5 with _ h6
    injection h6 with _ h7
    injection h7 with _ h8
    injection h8 with _ h9
    rw [h9]
  · rename_i restv hno1 heq
    injection heq with _ h2
    injection h2 with _ h3
    injection h3 with _ h4
    injection h4 with _ h5
    injection h5 with _ h6
    injection h6 with _ h7
    injection h7 with _ h8
    exact (hno1 b h8.symm).elim
  · rename_i cv restv hno1 hno2 heq
    injection heq with h1 h2
    exact (hno1 b h1.symm h2.symm).elim
  · rename_i heq
    exact absurd heq (by simp)

/-- `stripFence` commutes with a backtick-free prefix. -/
theorem stripFence_append_no_tick (a rest : List Char) :
    '\x60' ∉ a → stripFence (a ++ rest) = a ++ stripFence rest := by
  induction a with
  | nil => intro _; rfl
  | cons c arest ih =>
    intro ha
    have hc : ¬ c = '\x60' := fun h => ha (h ▸ List.mem_cons_self c arest)
    rw [List.cons_append, stripFence_cons_ne c _ hc,
      ih (fun h => ha (List.mem_cons_of_mem c h))]
    rfl

/-- `stripJsonFence` commutes with a backtick-free prefix. -/
theorem stripJsonFence_append_no_tick (a rest : List Char) :
    '\x60' ∉ a → stripJsonFence (a ++ rest) = a ++ stripJsonFence rest := by
  induction a with
  | nil => intro _; rfl
  | cons c arest ih =>
    intro ha
    have hc : ¬ c = '\x60' := fun h => ha (h ▸ List.mem_cons_self c arest)
    rw [List.cons_append, stripJsonFence_cons_ne c _ hc,
      ih (fun h => ha (List.mem_cons_of_mem c h))]
    rfl

/-- C10: fence stripping is a global substring deletion, not a wrapper
removal: each occurrence of the json fence and of the bare fence (with one
optional following newline) is deleted wherever it appears — here through
an arbitrary backtick-free prefix — and, concretely, a valid JSON object
whose `reply` string value contains three backticks is altered before the
parse, so the normalizer returns the altered object instead of the one the
raw text denotes. -/
theorem cleanText_global_fence_deletion (a b : List Char)
    (ha : '\x60' ∉ a) (hb : b.head? ≠ some '\n') :
    (stripJsonFence (a ++ '\x60' :: '\x60' :: '\x60' :: 'j' :: 's' :: 'o' :: 'n' :: b) =
      a ++ stripJsonFence b) ∧
    (stripJsonFence (a ++ '\x60' :: '\x60' :: '\x60' :: 'j' :: 's' :: 'o' :: 'n' :: '\n' :: b) =
      a ++ stripJsonFence b) ∧
    (stripFence (a ++ '\x60' :: '\x60' :: '\x60' :: b) = a ++ stripFence b) ∧
    (stripFence (a ++ '\x60' :: '\x60' :: '\x60' :: '\n' :: b) = a ++ stripFence b) ∧
    (parseJson fencedRaw = some fencedObj ∧
      normalizeResponse "hi" fencedRaw = { success := true, data := alteredObj } ∧
      strAt "reply" fencedObj = "x\x60\x60\x60y" ∧
      strAt "reply" alteredObj = "xy" ∧
      alteredObj ≠ fencedObj) := by
  refine ⟨?_, ?_, ?_, ?_, rfl, rfl, rfl, rfl, ?_⟩
  · rw [stripJsonFence_append_no_tick a _ ha, stripJsonFence_fence b hb]
  · rw [stripJsonFence_append_no_tick a _ ha, stripJsonFence_fence_nl b]
  · rw [stripFence_append_no_tick a _ ha, stripFence_fence b hb]
  · rw [stripFence_append_no_tick a _ ha, stripFence_fence_nl b]
  · intro h
    have h2 := congrArg (strAt "reply") h
    exact absurd h2 (by decide)

/-- C10 witness: deletion through the concrete prefix `ab` with suffix
`cd`. -/
theorem cleanText_global_fence_deletion_witness :
    stripFence (('a' :: 'b' :: []) ++ '\x60' :: '\x60' :: '\x60' :: ('c' :: 'd' :: [])) =
      ('a' :: 'b' :: []) ++ stripFence ('c' :: 'd' :: []) :=
  (cleanText_global_fence_deletion ('a' :: 'b' :: []) ('c' :: 'd' :: [])
    (by decide) (by decide)).2.2.1
